import Mathlib

/-!
Verification of the video-exclusion-toolbox thumbnail pipeline.

Shallow embedding of the Python cloud functions in
src/youtube_thumbnails_process, src/youtube_thumbnails_generate_cropouts,
src/youtube_thumbnails_dispatch, src/youtube_thumbnails_evaluate_age_dispatcher
and src/youtube_thumbnails_evaluate_age_processor.  External collaborators
(HTTP, BigQuery, Gemini, the clock) are modelled as explicit oracle arguments;
floating point coordinates are modelled as rationals (the code only compares
and multiplies them); PIL image cropping is modelled symbolically by recording
which crop box, if any, is applied to the image.
-/

/-- A PIL image, abstracted to the data the cropping code inspects. -/
structure PILImage where
  width : Nat
  height : Nat
  deriving DecidableEq, Repr

/-- The symbolic result of the cropping helpers: either the unmodified input
image is returned, or PIL crop is invoked on the image with the given
(top-left-x, top-left-y, bottom-right-x, bottom-right-y) box. -/
inductive CropResult where
  | original (img : PILImage)
  | cropped (img : PILImage) (box : ℚ × ℚ × ℚ × ℚ)
  deriving DecidableEq, Repr

namespace GenerateCropouts

/-- Embedding of youtube_thumbnails_generate_cropouts/main.py
_cropout_from_image (lines 352-396): sentinel check first, then the
dual-mode relative/absolute coordinate policy. -/
def cropoutFromImage (image : PILImage) (top_left_x top_left_y
    bottom_right_x bottom_right_y : ℚ) : CropResult :=
  let width : ℚ := image.width
  let height : ℚ := image.height
  if bottom_right_x = 0 ∧ bottom_right_y = 0 then
    .original image
  else if top_left_x ≤ 1 ∧ top_left_y ≤ 1 ∧ bottom_right_x ≤ 1 ∧
      bottom_right_y ≤ 1 then
    .cropped image (top_left_x * width, top_left_y * height,
      bottom_right_x * width, bottom_right_y * height)
  else
    .cropped image (top_left_x, top_left_y, bottom_right_x, bottom_right_y)

end GenerateCropouts

namespace ThumbnailsProcess

/-- Embedding of youtube_thumbnails_process/main.py _cropout_from_image
(lines 312-346): always treats the coordinates as relative and scales them
by the image dimensions, with no sentinel and no absolute mode. -/
def cropoutFromImage (image : PILImage) (top_left_x top_left_y
    bottom_right_x bottom_right_y : ℚ) : CropResult :=
  let width : ℚ := image.width
  let height : ℚ := image.height
  .cropped image (top_left_x * width, top_left_y * height,
    bottom_right_x * width, bottom_right_y * height)

end ThumbnailsProcess

/-- Claim C3: the cropout-generation crop evaluates the dual-mode policy in
order: the (0,0) bottom-right sentinel returns the unmodified input image;
otherwise all four coordinates at most 1 means relative mode, scaling the x
coordinates by the image width and the y coordinates by the image height;
otherwise the four coordinates are used as an absolute box with no scaling. -/
theorem claim_C3_crop_dual_mode_policy (img : PILImage) (tlx tly brx bry : ℚ) :
    (brx = 0 ∧ bry = 0 →
      GenerateCropouts.cropoutFromImage img tlx tly brx bry = .original img) ∧
    (¬(brx = 0 ∧ bry = 0) → (tlx ≤ 1 ∧ tly ≤ 1 ∧ brx ≤ 1 ∧ bry ≤ 1) →
      GenerateCropouts.cropoutFromImage img tlx tly brx bry =
        .cropped img (tlx * img.width, tly * img.height,
          brx * img.width, bry * img.height)) ∧
    (¬(brx = 0 ∧ bry = 0) → ¬(tlx ≤ 1 ∧ tly ≤ 1 ∧ brx ≤ 1 ∧ bry ≤ 1) →
      GenerateCropouts.cropoutFromImage img tlx tly brx bry =
        .cropped img (tlx, tly, brx, bry)) := by
  refine ⟨fun h => ?_, fun h1 h2 => ?_, fun h1 h2 => ?_⟩
  · simp [GenerateCropouts.cropoutFromImage, h]
  · simp [GenerateCropouts.cropoutFromImage, h1, h2]
  · simp [GenerateCropouts.cropoutFromImage, h1, h2]

/-- Concrete instances of the three branches of claim C3. -/
theorem claim_C3_crop_dual_mode_policy_witness :
    (GenerateCropouts.cropoutFromImage ⟨800, 400⟩ (1/2) (1/2) 0 0 =
      .original ⟨800, 400⟩) ∧
    (GenerateCropouts.cropoutFromImage ⟨800, 400⟩ (1/4) (1/4) (1/2) (1/2) =
      .cropped ⟨800, 400⟩ ((1/4) * ((800 : Nat) : ℚ), (1/4) * ((400 : Nat) : ℚ),
        (1/2) * ((800 : Nat) : ℚ), (1/2) * ((400 : Nat) : ℚ))) ∧
    (GenerateCropouts.cropoutFromImage ⟨800, 400⟩ 10 20 30 40 =
      .cropped ⟨800, 400⟩ (10, 20, 30, 40)) :=
  ⟨(claim_C3_crop_dual_mode_policy ⟨800, 400⟩ (1/2) (1/2) 0 0).1 ⟨rfl, rfl⟩,
   (claim_C3_crop_dual_mode_policy ⟨800, 400⟩ (1/4) (1/4) (1/2) (1/2)).2.1
     (by norm_num) (by norm_num),
   (claim_C3_crop_dual_mode_policy ⟨800, 400⟩ 10 20 30 40).2.2
     (by norm_num) (by norm_num)⟩

/-- Claim C10: on the shared domain of relative, non-sentinel coordinates
(all four at most 1 and the bottom-right pair not (0,0)), the
thumbnails-process crop variant and the cropout-generation crop variant
return the same cropped image. -/
theorem claim_C10_crop_variants_agree (img : PILImage) (tlx tly brx bry : ℚ)
    (h1 : tlx ≤ 1) (h2 : tly ≤ 1) (h3 : brx ≤ 1) (h4 : bry ≤ 1)
    (h5 : ¬(brx = 0 ∧ bry = 0)) :
    ThumbnailsProcess.cropoutFromImage img tlx tly brx bry =
      GenerateCropouts.cropoutFromImage img tlx tly brx bry := by
  simp [ThumbnailsProcess.cropoutFromImage, GenerateCropouts.cropoutFromImage,
    h1, h2, h3, h4, h5]

/-- Concrete instance of claim C10 on a relative, non-sentinel input. -/
theorem claim_C10_crop_variants_agree_witness :
    ThumbnailsProcess.cropoutFromImage ⟨100, 50⟩ (1/4) (1/4) (1/2) (1/2) =
      GenerateCropouts.cropoutFromImage ⟨100, 50⟩ (1/4) (1/4) (1/2) (1/2) :=
  claim_C10_crop_variants_agree ⟨100, 50⟩ (1/4) (1/4) (1/2) (1/2)
    (by norm_num) (by norm_num) (by norm_num) (by norm_num) (by norm_num)

namespace EvalAgeDispatcher

/-- One element of the videos payload: the Python dict with a video_id key. -/
structure VideoRow where
  video_id : String
  deriving DecidableEq, Repr

/-- A batch message published by
youtube_thumbnails_evaluate_age_dispatcher/main.py run (lines 257-266). -/
structure BatchMessage where
  system_instruction : String
  prompt : String
  batch_id : String
  batch_part : String
  total_batch_parts : String
  videos : List VideoRow
  deriving DecidableEq, Repr

/-- The hard-coded batch size of the dispatcher (main.py line 82). -/
def BATCH_SIZE : Nat := 5

/-- The consecutive slices data[i : i+B] taken by the Python loop
for i in range(0, len(data), B).  Defined for any B so the batching facts
can be stated for every positive batch size. -/
def pySlices (B : Nat) (l : List α) : List (List α) :=
  if _hB : B = 0 then [] else
  match l with
  | [] => []
  | x :: xs => (x :: xs).take B :: pySlices B ((x :: xs).drop B)
termination_by l.length
decreasing_by
  simp only [List.length_drop, List.length_cons]
  omega

/-- The message-building loop of run (lines 257-266): the j-th constructed
message carries batch_part str(j+1) (in the source j = int(i / BATCH_SIZE)
for the slice offset i = j * BATCH_SIZE, exact because the offsets stay far
below 2 to the 53), the precomputed total part count, and the slice
data[i : i+B] as its videos. -/
def buildMessagesAux (si p : String) (B tot j : Nat) (l : List VideoRow) :
    List BatchMessage :=
  if _hB : B = 0 then [] else
  match l with
  | [] => []
  | x :: xs =>
    { system_instruction := si, prompt := p, batch_id := "placeholder",
      batch_part := toString (j + 1), total_batch_parts := toString tot,
      videos := (x :: xs).take B } ::
      buildMessagesAux si p B tot (j + 1) ((x :: xs).drop B)
termination_by l.length
decreasing_by
  simp only [List.length_drop, List.length_cons]
  omega

/-- The messages_to_publish list built by run for the candidate rows, with
total_batch_parts = str(math.ceil(len(data) / B)), which for natural numbers
is (len + B - 1) / B. -/
def buildMessages (si p : String) (B : Nat) (data : List VideoRow) :
    List BatchMessage :=
  buildMessagesAux si p B ((data.length + B - 1) / B) 0 data

theorem pySlices_nil (B : Nat) : pySlices B ([] : List α) = [] := by
  rw [pySlices]
  split <;> rfl

theorem pySlices_cons (B : Nat) (hB : B ≠ 0) (x : α) (xs : List α) :
    pySlices B (x :: xs) =
      (x :: xs).take B :: pySlices B ((x :: xs).drop B) := by
  rw [pySlices]
  simp [hB]

theorem buildMessagesAux_nil (si p : String) (B tot j : Nat) :
    buildMessagesAux si p B tot j [] = [] := by
  rw [buildMessagesAux]
  split <;> rfl

theorem buildMessagesAux_cons (si p : String) (B tot j : Nat) (hB : B ≠ 0)
    (x : VideoRow) (xs : List VideoRow) :
    buildMessagesAux si p B tot j (x :: xs) =
      { system_instruction := si, prompt := p, batch_id := "placeholder",
        batch_part := toString (j + 1), total_batch_parts := toString tot,
        videos := (x :: xs).take B } ::
        buildMessagesAux si p B tot (j + 1) ((x :: xs).drop B) := by
  rw [buildMessagesAux]
  simp [hB]

/-- Strong induction along the recursion pattern the slicing loop uses:
the step passes from a nonempty list to that list with its first B elements
removed, and the slice index advances by one. -/
theorem pySlicesRec {C : Nat → List α → Prop} (B : Nat) (hB : B ≠ 0)
    (h0 : ∀ j, C j [])
    (hstep : ∀ j x xs, C (j + 1) ((x :: xs).drop B) → C j (x :: xs)) :
    ∀ j l, C j l := by
  have H : ∀ (n j : Nat) (l : List α), l.length ≤ n → C j l := by
    intro n
    induction n with
    | zero =>
      intro j l hl
      cases l with
      | nil => exact h0 j
      | cons x xs => simp at hl
    | succ n ih =>
      intro j l hl
      cases l with
      | nil => exact h0 j
      | cons x xs =>
        refine hstep j x xs (ih (j + 1) _ ?_)
        simp only [List.length_drop, List.length_cons] at hl ⊢
        omega
  exact fun j l => H l.length j l le_rfl

theorem buildMessagesAux_map_videos (si p : String) (B tot : Nat)
    (hB : B ≠ 0) : ∀ (j : Nat) (l : List VideoRow),
    (buildMessagesAux si p B tot j l).map (fun m => m.videos) =
      pySlices B l := by
  refine pySlicesRec (C := fun j l =>
    (buildMessagesAux si p B tot j l).map (fun m => m.videos) =
      pySlices B l) B hB (fun j => ?_) (fun j x xs ih => ?_)
  · dsimp only
    rw [buildMessagesAux_nil, pySlices_nil]
    rfl
  · dsimp only at ih ⊢
    rw [buildMessagesAux_cons si p B tot j hB, pySlices_cons B hB,
      List.map_cons, ih]

theorem pySlices_flatten (B : Nat) (hB : B ≠ 0) :
    ∀ l : List α, (pySlices B l).flatten = l := by
  refine fun l => pySlicesRec (C := fun _ l => (pySlices B l).flatten = l) B hB
    (fun _ => ?_) (fun j x xs ih => ?_) 0 l
  · dsimp only
    rw [pySlices_nil]
    rfl
  · dsimp only at ih ⊢
    rw [pySlices_cons B hB, List.flatten_cons, ih, List.take_append_drop]

theorem ceilDiv_rec (B n : Nat) (hB : B ≠ 0) (hn : n ≠ 0) :
    (n + B - 1) / B = (n - B + B - 1) / B + 1 := by
  rcases Nat.lt_or_ge n B with hc | hc
  · have h0 : n - B = 0 := by omega
    have hz : (0 + B - 1) / B = 0 := Nat.div_eq_of_lt (by omega)
    have h1 : (n + B - 1) / B = 1 := Nat.div_eq_of_lt_le (by omega) (by omega)
    rw [h0]
    omega
  · have hsplit : n + B - 1 = (n - B + B - 1) + B := by omega
    rw [hsplit, Nat.add_div_right _ (by omega)]

theorem pySlices_length (B : Nat) (hB : B ≠ 0) :
    ∀ l : List α, (pySlices B l).length = (l.length + B - 1) / B := by
  refine fun l => pySlicesRec (C := fun _ l =>
    (pySlices B l).length = (l.length + B - 1) / B) B hB
    (fun _ => ?_) (fun j x xs ih => ?_) 0 l
  · dsimp only
    rw [pySlices_nil]
    simp [Nat.div_eq_of_lt (show B - 1 < B by omega)]
  · dsimp only at ih ⊢
    rw [pySlices_cons B hB]
    show (pySlices B ((x :: xs).drop B)).length + 1 = ((x :: xs).length + B - 1) / B
    rw [ih, List.length_drop]
    exact (ceilDiv_rec B (x :: xs).length hB (by simp)).symm

theorem pySlices_mem_length_le (B : Nat) (hB : B ≠ 0) :
    ∀ (l : List α) (c : List α), c ∈ pySlices B l → c.length ≤ B := by
  refine fun l => pySlicesRec (C := fun _ l =>
    ∀ c : List α, c ∈ pySlices B l → c.length ≤ B) B hB
    (fun _ c hc => ?_) (fun j x xs ih c hc => ?_) 0 l
  · rw [pySlices_nil] at hc
    simp at hc
  · dsimp only at ih
    rw [pySlices_cons B hB, List.mem_cons] at hc
    rcases hc with hc | hc
    · subst hc
      simp [List.length_take]
    · exact ih c hc

theorem pySlices_dropLast_length (B : Nat) (hB : B ≠ 0) :
    ∀ (l : List α) (c : List α), c ∈ (pySlices B l).dropLast →
      c.length = B := by
  refine fun l => pySlicesRec (C := fun _ l =>
    ∀ c : List α, c ∈ (pySlices B l).dropLast → c.length = B) B hB
    (fun _ c hc => ?_) (fun j x xs ih c hc => ?_) 0 l
  · rw [pySlices_nil] at hc
    simp at hc
  · dsimp only at ih
    rw [pySlices_cons B hB] at hc
    by_cases hrest : pySlices B ((x :: xs).drop B) = []
    · simp [hrest] at hc
    · rw [List.dropLast_cons_of_ne_nil hrest, List.mem_cons] at hc
      rcases hc with hc | hc
      · subst hc
        have hlong : B < (x :: xs).length := by
          by_contra hle
          refine hrest ?_
          rw [List.drop_eq_nil_iff.mpr (by omega), pySlices_nil]
        simp only [List.length_take, List.length_cons] at *
        omega
      · exact ih c hc

theorem pySlices_ne_nil (B : Nat) (hB : B ≠ 0) (l : List α) (hl : l ≠ []) :
    pySlices B l ≠ [] := by
  cases l with
  | nil => exact absurd rfl hl
  | cons x xs =>
    rw [pySlices_cons B hB]
    simp

theorem pySlices_getLast_length (B : Nat) (hB : B ≠ 0) :
    ∀ (l : List α) (_hl : l ≠ []) (h : pySlices B l ≠ []),
      ((pySlices B l).getLast h).length =
        if l.length % B = 0 then B else l.length % B := by
  refine fun l => pySlicesRec (C := fun _ l =>
    ∀ (_hl : l ≠ []) (h : pySlices B l ≠ []),
      ((pySlices B l).getLast h).length =
        if l.length % B = 0 then B else l.length % B) B hB
    (fun _ hl _ => absurd rfl hl) (fun j x xs ih hl h => ?_) 0 l
  dsimp only at ih ⊢
  by_cases hrest : (x :: xs).drop B = []
  · have hle : (x :: xs).length ≤ B := List.drop_eq_nil_iff.mp hrest
    have he : pySlices B (x :: xs) = [(x :: xs).take B] := by
      rw [pySlices_cons B hB, hrest, pySlices_nil]
    have hgl := List.getLast_congr h (by simp) he
    rw [hgl, List.getLast_singleton, List.length_take]
    simp only [List.length_cons] at hle ⊢
    rcases Nat.lt_or_ge (xs.length + 1) B with hc | hc
    · rw [Nat.mod_eq_of_lt hc, if_neg (by omega)]
      omega
    · have hBeq : xs.length + 1 = B := by omega
      rw [hBeq]
      simp
  · have htail : pySlices B ((x :: xs).drop B) ≠ [] :=
      pySlices_ne_nil B hB _ hrest
    have hlt : B < (x :: xs).length := by
      rcases Nat.lt_or_ge B (x :: xs).length with hc | hc
      · exact hc
      · exact absurd (List.drop_eq_nil_iff.mpr hc) hrest
    have he : pySlices B (x :: xs) =
        (x :: xs).take B :: pySlices B ((x :: xs).drop B) :=
      pySlices_cons B hB x xs
    have hgl := List.getLast_congr h
      (by rw [← he]; exact h) he
    rw [hgl, List.getLast_cons htail, ih hrest htail]
    have hmod : ((x :: xs).drop B).length % B = (x :: xs).length % B := by
      rw [List.length_drop]
      conv_rhs => rw [show (x :: xs).length = ((x :: xs).length - B) + B by omega]
      rw [Nat.add_mod_right]
    rw [hmod]

theorem buildMessagesAux_batch_part (si p : String) (B tot : Nat)
    (hB : B ≠ 0) : ∀ (j : Nat) (l : List VideoRow) (i : Nat)
    (hi : i < (buildMessagesAux si p B tot j l).length),
    ((buildMessagesAux si p B tot j l).get ⟨i, hi⟩).batch_part =
      toString (j + i + 1) := by
  refine pySlicesRec (C := fun j l => ∀ (i : Nat)
    (hi : i < (buildMessagesAux si p B tot j l).length),
    ((buildMessagesAux si p B tot j l).get ⟨i, hi⟩).batch_part =
      toString (j + i + 1)) B hB (fun j i hi => ?_) (fun j x xs ih i hi => ?_)
  · rw [buildMessagesAux_nil] at hi
    simp at hi
  · dsimp only at ih ⊢
    rw [List.get_of_eq (buildMessagesAux_cons si p B tot j hB x xs)]
    match i, hi with
    | 0, _ => rfl
    | Nat.succ i', hi =>
      rw [List.get_cons_succ, ih]
      congr 1
      omega

theorem buildMessagesAux_total (si p : String) (B tot : Nat) (hB : B ≠ 0) :
    ∀ (j : Nat) (l : List VideoRow) (m : BatchMessage),
    m ∈ buildMessagesAux si p B tot j l → m.total_batch_parts = toString tot := by
  refine pySlicesRec (C := fun j l => ∀ m : BatchMessage,
    m ∈ buildMessagesAux si p B tot j l →
      m.total_batch_parts = toString tot) B hB
    (fun j m hm => ?_) (fun j x xs ih m hm => ?_)
  · rw [buildMessagesAux_nil] at hm
    simp at hm
  · dsimp only at ih
    rw [buildMessagesAux_cons si p B tot j hB, List.mem_cons] at hm
    rcases hm with hm | hm
    · subst hm; rfl
    · exact ih m hm

/-- Claim C2: for a non-empty candidate list of length N and batch size
B > 0, the dispatcher builds exactly ceil(N/B) messages; every message has at
most B videos, all but the last have exactly B and the last has N mod B
(or B when B divides N); the j-th message (0-based) carries batch_part
str(j+1) and total_batch_parts str(ceil(N/B)); and concatenating the videos
of all messages in order reproduces the original candidate order. -/
theorem claim_C2_dispatcher_batching (si p : String) (B : Nat)
    (data : List VideoRow) (hB : 0 < B) (hd : data ≠ []) :
    (buildMessages si p B data).length = (data.length + B - 1) / B ∧
    (∀ m ∈ buildMessages si p B data, m.videos.length ≤ B) ∧
    (∀ m ∈ (buildMessages si p B data).dropLast, m.videos.length = B) ∧
    (∀ h : buildMessages si p B data ≠ [],
      ((buildMessages si p B data).getLast h).videos.length =
        if data.length % B = 0 then B else data.length % B) ∧
    (∀ i (hi : i < (buildMessages si p B data).length),
      ((buildMessages si p B data).get ⟨i, hi⟩).batch_part =
        toString (i + 1)) ∧
    (∀ m ∈ buildMessages si p B data,
      m.total_batch_parts = toString ((data.length + B - 1) / B)) ∧
    ((buildMessages si p B data).map (fun m => m.videos)).flatten = data := by
  have hBne : B ≠ 0 := by omega
  have hmap : (buildMessages si p B data).map (fun m => m.videos) =
      pySlices B data :=
    buildMessagesAux_map_videos si p B ((data.length + B - 1) / B) hBne 0 data
  refine ⟨?_, ?_, ?_, ?_, ?_, ?_, ?_⟩
  · have := congrArg List.length hmap
    rw [List.length_map] at this
    rw [this, pySlices_length B hBne]
  · intro m hm
    refine pySlices_mem_length_le B hBne data m.videos ?_
    rw [← hmap]
    exact List.mem_map_of_mem _ hm
  · intro m hm
    refine pySlices_dropLast_length B hBne data m.videos ?_
    rw [← hmap, ← List.map_dropLast]
    exact List.mem_map_of_mem _ hm
  · intro h
    have hmapne : (buildMessages si p B data).map (fun m => m.videos) ≠ [] := by
      simp [h]
    have hslne : pySlices B data ≠ [] := pySlices_ne_nil B hBne data hd
    have h1 := List.getLast_map (fun m => m.videos)
      (buildMessages si p B data) hmapne
    have h2 := List.getLast_congr hmapne hslne hmap
    rw [← h1, h2]
    exact pySlices_getLast_length B hBne data hd hslne
  · intro i hi
    have h := buildMessagesAux_batch_part si p B ((data.length + B - 1) / B)
      hBne 0 data i hi
    rw [Nat.zero_add] at h
    exact h
  · intro m hm
    exact buildMessagesAux_total si p B ((data.length + B - 1) / B)
      hBne 0 data m hm
  · rw [hmap]
    exact pySlices_flatten B hBne data

/-- Concrete run of claim C2: five candidates with batch size two give three
messages, parts "1" "2" "3" of total "3", video groups of sizes 2, 2, 1,
concatenating back to the input. -/
theorem claim_C2_dispatcher_batching_witness :
    (0 : Nat) < 2 ∧
    ([⟨"v1"⟩, ⟨"v2"⟩, ⟨"v3"⟩, ⟨"v4"⟩, ⟨"v5"⟩] : List VideoRow) ≠ [] ∧
    (buildMessages "si" "p" 2
      [⟨"v1"⟩, ⟨"v2"⟩, ⟨"v3"⟩, ⟨"v4"⟩, ⟨"v5"⟩]).length = 3 ∧
    (∀ m ∈ buildMessages "si" "p" 2
      [⟨"v1"⟩, ⟨"v2"⟩, ⟨"v3"⟩, ⟨"v4"⟩, ⟨"v5"⟩],
      m.total_batch_parts = "3") ∧
    (∀ h : buildMessages "si" "p" 2
        [⟨"v1"⟩, ⟨"v2"⟩, ⟨"v3"⟩, ⟨"v4"⟩, ⟨"v5"⟩] ≠ [],
      ((buildMessages "si" "p" 2
        [⟨"v1"⟩, ⟨"v2"⟩, ⟨"v3"⟩, ⟨"v4"⟩, ⟨"v5"⟩]).getLast h).videos.length
        = 1) ∧
    ((buildMessages "si" "p" 2
      [⟨"v1"⟩, ⟨"v2"⟩, ⟨"v3"⟩, ⟨"v4"⟩, ⟨"v5"⟩]).map
        (fun m => m.videos)).flatten =
      [⟨"v1"⟩, ⟨"v2"⟩, ⟨"v3"⟩, ⟨"v4"⟩, ⟨"v5"⟩] := by
  obtain ⟨h1, h2, h3, h4, h5, h6, h7⟩ :=
    claim_C2_dispatcher_batching "si" "p" 2
      [⟨"v1"⟩, ⟨"v2"⟩, ⟨"v3"⟩, ⟨"v4"⟩, ⟨"v5"⟩] (by decide) (by decide)
  refine ⟨by decide, by decide, by rw [h1]; decide, ?_, ?_, h7⟩
  · intro m hm
    rw [h6 m hm]
    decide
  · intro h
    rw [h4 h]
    decide

end EvalAgeDispatcher

/-- An HTTP response, abstracted to the fields the probing code inspects. -/
structure HttpResp where
  status : Nat
  contentType : String
  deriving DecidableEq, Repr

/-- The inner probing loop shared by both resolver variants: walk the
candidate URLs of one tier in order; at the first accepted response record
the URL and break.  Returns the recorded hit (if any) and the list of URLs
that were actually probed, in probe order. -/
def probeTier (accept : String → Bool) : List String → Option String × List String
  | [] => (none, [])
  | u :: rest =>
    if accept u then (some u, [u])
    else
      let r := probeTier accept rest
      (r.1, u :: r.2)

namespace EvalAgeProcessor

/-- Quality order probed within a tier
(youtube_thumbnails_evaluate_age_processor/main.py line 144). -/
def PREFIXES : List String := ["maxres", "sd", "hq", "mq", ""]

/-- The tiers: one suffix group per thumbnail identifier (line 145). -/
def SUFFIXES : List String := ["default", "1", "2", "3"]

/-- The URLs probed for one tier, in order (lines 146-151). -/
def tierUrls (video_id suffix : String) : List String :=
  PREFIXES.map (fun p =>
    "https://i.ytimg.com/vi/" ++ video_id ++ "/" ++ p ++ suffix ++ ".jpg")

/-- Python str.startswith, computed on the character lists. -/
def pyStartsWith (s pre : String) : Bool :=
  pre.data.isPrefixOf s.data

/-- The acceptance test of lines 154-156: HTTP 200 and a content type
starting with image/. -/
def acceptStrict (resp : String → HttpResp) (url : String) : Bool :=
  (resp url).status == 200 && pyStartsWith (resp url).contentType "image/"

/-- The thumbnail_urls list accumulated by the nested loops of
_get_thumbnail_urls (lines 147-159): per suffix group, the first accepted
URL, appended in suffix order; a group with no hit appends nothing. -/
def tierHits (resp : String → HttpResp) (video_id : String) : List String :=
  SUFFIXES.foldl (fun acc suffix =>
    acc ++ ((probeTier (acceptStrict resp) (tierUrls video_id suffix)).1).toList) []

/-- _get_thumbnail_urls (lines 134-174): the accumulated hits, or none when
the list is empty. -/
def getThumbnailUrls (resp : String → HttpResp) (video_id : String) :
    Option (List String) :=
  let thumbnail_urls := tierHits resp video_id
  if thumbnail_urls = [] then none else some thumbnail_urls

end EvalAgeProcessor

namespace ThumbnailsProcess

/-- The URL template of youtube_thumbnails_process/main.py line 59. -/
def thumbnailUrl (video_id thumbnail_name : String) : String :=
  "https://i.ytimg.com/vi/" ++ video_id ++ "/" ++ thumbnail_name ++ ".jpg"

/-- _get_best_resolution_thumbnail (lines 465-488): walk the ordered file
names, return the first URL whose GET has status 200 (this looser variant
checks no content type); an empty result when no candidate responds 200. -/
def getBestResolutionThumbnail (resp : String → HttpResp)
    (file_names : List String) (video_id : String) : Option String :=
  (probeTier (fun url => (resp url).status == 200)
    (file_names.map (fun name => thumbnailUrl video_id name))).1

end ThumbnailsProcess

theorem probeTier_fst (accept : String → Bool) (urls : List String) :
    (probeTier accept urls).1 = urls.find? accept := by
  induction urls with
  | nil => rfl
  | cons u rest ih =>
    by_cases h : accept u
    · simp [probeTier, h]
    · rw [List.find?_cons_of_neg _ (by simp [h])]
      simp only [probeTier, if_neg (by simp [h] : ¬(accept u = true))]
      exact ih

theorem probeTier_snd (accept : String → Bool) (urls : List String) :
    (probeTier accept urls).2 =
      urls.takeWhile (fun u => !accept u) ++
        (urls.dropWhile (fun u => !accept u)).take 1 := by
  induction urls with
  | nil => rfl
  | cons u rest ih =>
    by_cases h : accept u
    · simp [probeTier, h, List.takeWhile_cons, List.dropWhile_cons]
    · simp only [probeTier, if_neg (by simp [h] : ¬(accept u = true)),
        List.takeWhile_cons, List.dropWhile_cons]
      simp only [h, Bool.not_false, if_true, List.cons_append]
      rw [ih]

theorem foldl_append_toList (f : String → Option String) :
    ∀ (l : List String) (init : List String),
      l.foldl (fun acc s => acc ++ (f s).toList) init =
        init ++ l.flatMap (fun s => (f s).toList) := by
  intro l
  induction l with
  | nil => intro init; simp
  | cons s rest ih =>
    intro init
    simp only [List.foldl_cons, List.flatMap_cons, ih, List.append_assoc]

/-- Claim C4: for every acceptance oracle (HTTP 200 with an image content
type in the strict variant, bare HTTP 200 in the loose variant) and every
tier, the resolver records the first accepted URL in listed order; the URLs
actually probed are exactly the non-accepted strict prefix plus the first
hit, so variants after the first hit in a tier are never probed; for the
batch resolver, a URL is returned precisely when it is the first hit of one
of the suffix tiers, so a tier with no hit contributes nothing.  On the
concrete tier of four candidates where only the third responds 200 with an
image content type, exactly the first three are probed and not the fourth. -/
theorem claim_C4_resolver_probe_order :
    (∀ (accept : String → Bool) (urls : List String),
      (probeTier accept urls).1 = urls.find? accept ∧
      (probeTier accept urls).2 =
        urls.takeWhile (fun u => !accept u) ++
          (urls.dropWhile (fun u => !accept u)).take 1) ∧
    (∀ (resp : String → HttpResp) (video_id url : String),
      url ∈ EvalAgeProcessor.tierHits resp video_id ↔
        ∃ s ∈ EvalAgeProcessor.SUFFIXES,
          (probeTier (EvalAgeProcessor.acceptStrict resp)
            (EvalAgeProcessor.tierUrls video_id s)).1 = some url) ∧
    (∀ (resp : String → HttpResp) (file_names : List String)
      (video_id : String),
      ThumbnailsProcess.getBestResolutionThumbnail resp file_names video_id =
        (file_names.map (fun name =>
          ThumbnailsProcess.thumbnailUrl video_id name)).find?
            (fun url => (resp url).status == 200)) ∧
    ((probeTier
        (EvalAgeProcessor.acceptStrict (fun u =>
          if u = "u3" then ⟨200, "image/jpeg"⟩ else ⟨404, "text/html"⟩))
        ["u1", "u2", "u3", "u4"]).2 = ["u1", "u2", "u3"] ∧
      "u4" ∉ (probeTier
        (EvalAgeProcessor.acceptStrict (fun u =>
          if u = "u3" then ⟨200, "image/jpeg"⟩ else ⟨404, "text/html"⟩))
        ["u1", "u2", "u3", "u4"]).2 ∧
      (probeTier
        (EvalAgeProcessor.acceptStrict (fun u =>
          if u = "u3" then ⟨200, "image/jpeg"⟩ else ⟨404, "text/html"⟩))
        ["u1", "u2", "u3", "u4"]).1 = some "u3") := by
  refine ⟨fun accept urls => ⟨probeTier_fst accept urls,
    probeTier_snd accept urls⟩, ?_, ?_, by decide, by decide, by decide⟩
  · intro resp video_id url
    rw [EvalAgeProcessor.tierHits, foldl_append_toList]
    simp [Option.mem_def]
  · intro resp file_names video_id
    rw [ThumbnailsProcess.getBestResolutionThumbnail, probeTier_fst]

namespace GenerateCropouts

/-- The characters replaced in image names
(youtube_thumbnails_generate_cropouts/main.py line 54). -/
def CHARS_TO_REPLACE_IN_IMAGE_NAME : List Char :=
  [':', '/', '.', '?', '#', '&', '=', '+']

/-- Python str.replace for a multi-character pattern: leftmost
non-overlapping occurrences, the replacement text is not rescanned.  The
fuel argument only drives structural recursion; every step consumes at
least one input character, so fuel = length of the input never runs out. -/
def replaceSubAux (pat rep : List Char) : Nat → List Char → List Char
  | _, [] => []
  | 0, s => s
  | fuel + 1, c :: rest =>
    if 0 < pat.length ∧ pat.isPrefixOf (c :: rest) then
      rep ++ replaceSubAux pat rep fuel ((c :: rest).drop pat.length)
    else
      c :: replaceSubAux pat rep fuel rest

/-- Python s.replace(pat, rep) on character lists. -/
def replaceSub (pat rep s : List Char) : List Char :=
  replaceSubAux pat rep s.length s

/-- The sanitization of _generate_thumbnail_name (lines 299-304): replace
each listed character by an underscore (python single-character str.replace
is a character map), then the two fixed replacements of three and of two
underscores by one, in that order. -/
def sanitizeUrl (video_url : String) : String :=
  let s1 := CHARS_TO_REPLACE_IN_IMAGE_NAME.foldl
    (fun acc ch => acc.map (fun c => if c = ch then '_' else c)) video_url.data
  let s2 := replaceSub "___".data "_".data s1
  let s3 := replaceSub "__".data "_".data s2
  String.mk s3

/-- _generate_thumbnail_name (lines 288-305).  The six trailing characters
of str(uuid.uuid4()) are passed in as the random suffix oracle. -/
def generateThumbnailName (video_url label uuid_suffix : String) : String :=
  label ++ "-" ++ uuid_suffix ++ "-" ++ sanitizeUrl video_url

end GenerateCropouts

/-- Counterexample to claim C7: for label Face, the spec example URL and the
concrete six-hex suffix 0a1b2c, the generated name is NOT
Face-0a1b2c-https___i_ytimg_com_vi_abc_hq720_jpg as the claim states: the
two collapse replacements turn the three underscores after https into one. -/
theorem claim_C7_naming_counterexample :
    GenerateCropouts.generateThumbnailName
      "https://i.ytimg.com/vi/abc/hq720.jpg" "Face" "0a1b2c" ≠
      "Face-0a1b2c-https___i_ytimg_com_vi_abc_hq720_jpg" ∧
    GenerateCropouts.generateThumbnailName
      "https://i.ytimg.com/vi/abc/hq720.jpg" "Face" "0a1b2c" =
      "Face-0a1b2c-https_i_ytimg_com_vi_abc_hq720_jpg" := by
  constructor
  · decide
  · decide

/-- Claim C7 (amended): the generated cropout name is
label-suffix-sanitizedUrl where suffix is the random six-character oracle
and sanitization replaces each character of the fixed set by an underscore
and then applies the two fixed replacements, three underscores to one and
two underscores to one, in that order (this collapses underscore runs of
length up to four; longer runs are only shortened, e.g. five underscores
become two); for label Face and the spec example URL the sanitized tail is
https_i_ytimg_com_vi_abc_hq720_jpg. -/
theorem claim_C7_naming_amended :
    (∀ video_url label uuid_suffix : String,
      GenerateCropouts.generateThumbnailName video_url label uuid_suffix =
        label ++ "-" ++ uuid_suffix ++ "-" ++
          GenerateCropouts.sanitizeUrl video_url) ∧
    GenerateCropouts.sanitizeUrl "https://i.ytimg.com/vi/abc/hq720.jpg" =
      "https_i_ytimg_com_vi_abc_hq720_jpg" ∧
    GenerateCropouts.sanitizeUrl "a?&=+:b" = "a__b" := by
  refine ⟨fun u l s => rfl, by decide, by decide⟩

namespace ThumbnailsProcess

/-- One vertex of a Vision API bounding polygon. -/
structure Vertex where
  x : ℚ
  y : ℚ
  deriving DecidableEq, Repr

/-- A Vision API face result, abstracted to the fields
_parse_face_annotations reads: the detection confidence and the four
bounding-poly vertices in absolute pixels (the code indexes vertices 0
and 2). -/
structure FaceAnn where
  detection_confidence : ℚ
  v0 : Vertex
  v1 : Vertex
  v2 : Vertex
  v3 : Vertex
  deriving DecidableEq, Repr

/-- A Vision API localized object result, abstracted to the fields
_parse_vision_object_annotations reads: name, score and the four
normalized (already relative) bounding-poly vertices. -/
structure ObjAnn where
  name : String
  score : ℚ
  nv0 : Vertex
  nv1 : Vertex
  nv2 : Vertex
  nv3 : Vertex
  deriving DecidableEq, Repr

/-- The flat record both parsers produce. -/
structure AnnRecord where
  label : String
  confidence : ℚ
  top_left_x : ℚ
  top_left_y : ℚ
  bottom_right_x : ℚ
  bottom_right_y : ℚ
  datetime_updated : String
  deriving DecidableEq, Repr

/-- _parse_face_annotations (youtube_thumbnails_process/main.py lines
444-462): fixed label Face, vertices 0 and 2 taken verbatim (absolute
pixels at this point). -/
def parseFaceAnn (now : String) (f : FaceAnn) : AnnRecord :=
  { label := "Face", confidence := f.detection_confidence,
    top_left_x := f.v0.x, top_left_y := f.v0.y,
    bottom_right_x := f.v2.x, bottom_right_y := f.v2.y,
    datetime_updated := now }

/-- _parse_vision_object_annotations (lines 422-441): label and score from
the detector, normalized vertices 0 and 2 taken verbatim, no conversion. -/
def parseVisionObjectAnn (now : String) (o : ObjAnn) : AnnRecord :=
  { label := o.name, confidence := o.score,
    top_left_x := o.nv0.x, top_left_y := o.nv0.y,
    bottom_right_x := o.nv2.x, bottom_right_y := o.nv2.y,
    datetime_updated := now }

/-- _face_annotations_from_image (lines 383-419): parse every face, then
divide the x coordinates by the image width and the y coordinates by the
image height. -/
def faceAnnsFromImage (now : String) (width height : ℚ)
    (faces : List FaceAnn) : List AnnRecord :=
  (faces.map (parseFaceAnn now)).map (fun r =>
    { r with
      top_left_x := r.top_left_x / width,
      top_left_y := r.top_left_y / height,
      bottom_right_x := r.bottom_right_x / width,
      bottom_right_y := r.bottom_right_y / height })

/-- _localized_object_annotations_from_image (lines 355-380): parse every
object; no coordinate conversion happens. -/
def localizedObjectAnnsFromImage (now : String) (objs : List ObjAnn) :
    List AnnRecord :=
  objs.map (parseVisionObjectAnn now)

end ThumbnailsProcess

/-- Claim C8: every face record stores label Face and the absolute vertex
coordinates divided by the image width (x) and height (y), while localized
object records keep the normalized vertices unconverted; the concrete face
with absolute vertices (100,50)-(300,250) on a 1000 by 500 image stores the
relative box (0.1, 0.1, 0.3, 0.5). -/
theorem claim_C8_face_box_normalization :
    (∀ (now : String) (width height : ℚ) (faces : List ThumbnailsProcess.FaceAnn),
      ThumbnailsProcess.faceAnnsFromImage now width height faces =
        faces.map (fun f =>
          { label := "Face", confidence := f.detection_confidence,
            top_left_x := f.v0.x / width, top_left_y := f.v0.y / height,
            bottom_right_x := f.v2.x / width,
            bottom_right_y := f.v2.y / height,
            datetime_updated := now })) ∧
    (∀ (now : String) (objs : List ThumbnailsProcess.ObjAnn),
      ThumbnailsProcess.localizedObjectAnnsFromImage now objs =
        objs.map (fun o =>
          { label := o.name, confidence := o.score,
            top_left_x := o.nv0.x, top_left_y := o.nv0.y,
            bottom_right_x := o.nv2.x, bottom_right_y := o.nv2.y,
            datetime_updated := now })) ∧
    ThumbnailsProcess.faceAnnsFromImage "t0" 1000 500
      [{ detection_confidence := 9/10,
         v0 := ⟨100, 50⟩, v1 := ⟨300, 50⟩, v2 := ⟨300, 250⟩,
         v3 := ⟨100, 250⟩ }] =
      [{ label := "Face", confidence := 9/10,
         top_left_x := 1/10, top_left_y := 1/10,
         bottom_right_x := 3/10, bottom_right_y := 1/2,
         datetime_updated := "t0" }] := by
  refine ⟨fun now width height faces => ?_, fun now objs => rfl, ?_⟩
  · rw [ThumbnailsProcess.faceAnnsFromImage, List.map_map]
    rfl
  · norm_num [ThumbnailsProcess.faceAnnsFromImage,
      ThumbnailsProcess.parseFaceAnn]

namespace EvalAgeDispatcher

/-- SQL SELECT DISTINCT, keeping the first occurrence of each value in row
order (the order SQL leaves unspecified; only the set matters below). -/
def sqlDistinctAux (seen : List String) : List String → List String
  | [] => []
  | v :: rest =>
    if v ∈ seen then sqlDistinctAux seen rest
    else v :: sqlDistinctAux (v :: seen) rest

/-- SELECT DISTINCT over the source rows. -/
def sqlDistinct (l : List String) : List String :=
  sqlDistinctAux [] l

/-- The dedup query of youtube_thumbnails_evaluate_age_dispatcher/main.py
run (lines 223-235): SELECT DISTINCT video_id FROM source WHERE NOT EXISTS
(row with the same video_id in the target) LIMIT processing_limit, over the
modelled table states. -/
def gateNotExists (source target : List String) (limit : Nat) : List String :=
  ((sqlDistinct source).filter (fun v => !(target.contains v))).take limit

/-- The dedup query of youtube_thumbnails_dispatch/main.py run (lines
112-121): SELECT video_id FROM temp table WHERE video_id NOT IN (SELECT
video_id FROM target), with no DISTINCT and no LIMIT. -/
def gateNotIn (source target : List String) : List String :=
  source.filter (fun v => !(target.contains v))

theorem sqlDistinctAux_mem (v : String) :
    ∀ (l seen : List String),
      v ∈ sqlDistinctAux seen l ↔ v ∈ l ∧ v ∉ seen := by
  intro l
  induction l with
  | nil => intro seen; simp [sqlDistinctAux]
  | cons u rest ih =>
    intro seen
    by_cases hu : u ∈ seen
    · rw [sqlDistinctAux, if_pos hu, ih]
      constructor
      · rintro ⟨hv, hvs⟩
        exact ⟨List.mem_cons_of_mem u hv, hvs⟩
      · rintro ⟨hv, hvs⟩
        rcases List.mem_cons.mp hv with hv | hv
        · subst hv; exact absurd hu hvs
        · exact ⟨hv, hvs⟩
    · rw [sqlDistinctAux, if_neg hu]
      by_cases hvu : v = u
      · subst hvu
        simp [hu]
      · rw [List.mem_cons, ih]
        simp only [List.mem_cons, hvu, false_or]

theorem sqlDistinct_mem (v : String) (l : List String) :
    v ∈ sqlDistinct l ↔ v ∈ l := by
  rw [sqlDistinct, sqlDistinctAux_mem]
  simp

theorem gateNotExists_mem_of (source target : List String) (limit : Nat)
    (v : String) (hv : v ∈ gateNotExists source target limit) :
    v ∈ source ∧ v ∉ target := by
  have hsub := List.take_subset limit
    ((sqlDistinct source).filter (fun v => !(target.contains v)))
  have hmem := hsub hv
  rw [List.mem_filter] at hmem
  refine ⟨(sqlDistinct_mem v source).mp hmem.1, ?_⟩
  have h2 := hmem.2
  simpa using h2

theorem gateNotExists_mem_iff (source target : List String) (limit : Nat)
    (hlim : ((sqlDistinct source).filter
      (fun v => !(target.contains v))).length ≤ limit) (v : String) :
    v ∈ gateNotExists source target limit ↔ v ∈ source ∧ v ∉ target := by
  rw [gateNotExists, List.take_of_length_le hlim, List.mem_filter,
    sqlDistinct_mem]
  simp

end EvalAgeDispatcher

/-- Counterexample to claim C6: the age-evaluation dispatcher gate applies
LIMIT processing_limit, so with candidates a, b, an empty target table and
processing limit 1, the id b is unprocessed yet is not returned: the result
is not exactly the unprocessed subset. -/
theorem claim_C6_gate_counterexample :
    ("b" ∈ (["a", "b"] : List String) ∧ "b" ∉ ([] : List String)) ∧
    "b" ∉ EvalAgeDispatcher.gateNotExists ["a", "b"] [] 1 := by
  constructor
  · constructor
    · decide
    · decide
  · decide

/-- Claim C6 (amended): the thumbnails-dispatch gate (NOT IN, no limit)
returns exactly the candidate ids with no row in the target table; the
age-evaluation gate (NOT EXISTS with DISTINCT and LIMIT) returns only
unprocessed candidate ids, and exactly the unprocessed subset whenever that
subset fits within the processing limit; both gates are deterministic
functions of the candidate set and the target-table state, so two
invocations with no intervening writes return the same subset. -/
theorem claim_C6_gate_amended :
    (∀ (source target : List String) (v : String),
      v ∈ EvalAgeDispatcher.gateNotIn source target ↔
        v ∈ source ∧ v ∉ target) ∧
    (∀ (source target : List String) (limit : Nat) (v : String),
      v ∈ EvalAgeDispatcher.gateNotExists source target limit →
        v ∈ source ∧ v ∉ target) ∧
    (∀ (source target : List String) (limit : Nat),
      ((EvalAgeDispatcher.sqlDistinct source).filter
        (fun v => !(target.contains v))).length ≤ limit →
      ∀ v, v ∈ EvalAgeDispatcher.gateNotExists source target limit ↔
        v ∈ source ∧ v ∉ target) ∧
    (∀ (source target : List String) (limit : Nat),
      EvalAgeDispatcher.gateNotExists source target limit =
        EvalAgeDispatcher.gateNotExists source target limit ∧
      EvalAgeDispatcher.gateNotIn source target =
        EvalAgeDispatcher.gateNotIn source target) := by
  refine ⟨fun source target v => ?_,
    fun source target limit v hv =>
      EvalAgeDispatcher.gateNotExists_mem_of source target limit v hv,
    fun source target limit hlim v =>
      EvalAgeDispatcher.gateNotExists_mem_iff source target limit hlim v,
    fun source target limit => ⟨rfl, rfl⟩⟩
  rw [EvalAgeDispatcher.gateNotIn, List.mem_filter]
  simp

/-- Concrete instances of the amended claim C6: both gates evaluated on
small tables, with the limit hypothesis discharged by computation. -/
theorem claim_C6_gate_amended_witness :
    (("a" ∈ EvalAgeDispatcher.gateNotIn ["a", "b"] ["b"]) ↔
      ("a" ∈ (["a", "b"] : List String) ∧ "a" ∉ (["b"] : List String))) ∧
    (("a" ∈ EvalAgeDispatcher.gateNotExists ["a", "b", "a"] ["b"] 5) ↔
      ("a" ∈ (["a", "b", "a"] : List String) ∧
        "a" ∉ (["b"] : List String))) :=
  ⟨claim_C6_gate_amended.1 ["a", "b"] ["b"] "a",
   claim_C6_gate_amended.2.2.1 ["a", "b", "a"] ["b"] 5 (by decide) "a"⟩

namespace ThumbnailsDispatch

/-- Outcome of one BigQuery client call, as the Python code distinguishes
them: success, google.api_core.exceptions.PreconditionFailed, or any other
exception (carrying its message). -/
inductive OpResult where
  | ok
  | preconditionFailed
  | otherError (msg : String)
  deriving DecidableEq, Repr

/-- One observable step of temp_table_from_csv, in execution order.  The
attempt index distinguishes the first try from the single retry. -/
inductive Action where
  | loadJob
  | getTable (attempt : Nat)
  | updateTable (attempt : Nat)
  | sleep (seconds : Nat)
  deriving DecidableEq, Repr

/-- Embedding of youtube_thumbnails_dispatch/main.py temp_table_from_csv
(lines 160-214): run the load job; then try get_table plus update_table;
only PreconditionFailed is caught, and the handler sleeps five seconds and
runs get_table plus update_table once more with no protection, so any
failure of the retry (and any non-PreconditionFailed failure of the first
try) propagates.  Returns the trace of performed operations and the
invocation result. -/
def tempTableFromCsv (load : OpResult) (getT upd : Nat → OpResult) :
    List Action × Except String Unit :=
  match load with
  | .preconditionFailed => ([.loadJob], .error "PreconditionFailed")
  | .otherError m => ([.loadJob], .error m)
  | .ok =>
    match getT 1 with
    | .otherError m => ([.loadJob, .getTable 1], .error m)
    | .preconditionFailed =>
      let acts := [.loadJob, .getTable 1, .sleep 5, .getTable 2]
      match getT 2 with
      | .ok =>
        match upd 2 with
        | .ok => (acts ++ [.updateTable 2], .ok ())
        | .preconditionFailed =>
          (acts ++ [.updateTable 2], .error "PreconditionFailed")
        | .otherError m => (acts ++ [.updateTable 2], .error m)
      | .preconditionFailed => (acts, .error "PreconditionFailed")
      | .otherError m => (acts, .error m)
    | .ok =>
      match upd 1 with
      | .ok => ([.loadJob, .getTable 1, .updateTable 1], .ok ())
      | .otherError m => ([.loadJob, .getTable 1, .updateTable 1], .error m)
      | .preconditionFailed =>
        let acts := [.loadJob, .getTable 1, .updateTable 1, .sleep 5,
          .getTable 2]
        match getT 2 with
        | .ok =>
          match upd 2 with
          | .ok => (acts ++ [.updateTable 2], .ok ())
          | .preconditionFailed =>
            (acts ++ [.updateTable 2], .error "PreconditionFailed")
          | .otherError m => (acts ++ [.updateTable 2], .error m)
        | .preconditionFailed => (acts, .error "PreconditionFailed")
        | .otherError m => (acts, .error m)

/-- True exactly for expiration-update steps. -/
def isUpdate : Action → Bool
  | .updateTable _ => true
  | _ => false

end ThumbnailsDispatch

/-- Claim C9: when the expiration update fails with PreconditionFailed, the
operation is retried exactly once after a fixed five-second sleep; a
failure of that single retry propagates and is fatal (no third attempt is
ever made, and no other operation is ever retried: the load job and each
get_table run at most once per phase, appearing at most once per attempt
index in every trace). -/
theorem claim_C9_expiration_update_retry
    (load : ThumbnailsDispatch.OpResult)
    (getT upd : Nat → ThumbnailsDispatch.OpResult) :
    (((ThumbnailsDispatch.tempTableFromCsv load getT upd).1.filter
      ThumbnailsDispatch.isUpdate).length ≤ 2) ∧
    (load = .ok → getT 1 = .ok → upd 1 = .preconditionFailed →
      getT 2 = .ok →
      (ThumbnailsDispatch.tempTableFromCsv load getT upd).1 =
        [.loadJob, .getTable 1, .updateTable 1, .sleep 5, .getTable 2,
          .updateTable 2] ∧
      ((ThumbnailsDispatch.tempTableFromCsv load getT upd).2 = .ok () ↔
        upd 2 = .ok)) ∧
    (load = .ok → getT 1 = .ok → upd 1 = .ok →
      (ThumbnailsDispatch.tempTableFromCsv load getT upd).1 =
        [.loadJob, .getTable 1, .updateTable 1] ∧
      (ThumbnailsDispatch.tempTableFromCsv load getT upd).2 = .ok ()) ∧
    (∀ m, load = .ok → getT 1 = .ok → upd 1 = .otherError m →
      (ThumbnailsDispatch.tempTableFromCsv load getT upd).1 =
        [.loadJob, .getTable 1, .updateTable 1] ∧
      (ThumbnailsDispatch.tempTableFromCsv load getT upd).2 = .error m) := by
  refine ⟨?_, ?_, ?_, ?_⟩
  · rcases load with _ | _ | m <;>
      rcases hg1 : getT 1 with _ | _ | m1 <;>
      rcases hu1 : upd 1 with _ | _ | m2 <;>
      rcases hg2 : getT 2 with _ | _ | m3 <;>
      rcases hu2 : upd 2 with _ | _ | m4 <;>
      simp [ThumbnailsDispatch.tempTableFromCsv, hg1, hu1, hg2, hu2,
        ThumbnailsDispatch.isUpdate]
  · intro hl hg1 hu1 hg2
    subst hl
    rcases hu2 : upd 2 with _ | _ | m4 <;>
      simp [ThumbnailsDispatch.tempTableFromCsv, hg1, hu1, hg2, hu2]
  · intro hl hg1 hu1
    subst hl
    simp [ThumbnailsDispatch.tempTableFromCsv, hg1, hu1]
  · intro m hl hg1 hu1
    subst hl
    simp [ThumbnailsDispatch.tempTableFromCsv, hg1, hu1]

/-- Concrete instance of claim C9: first update PreconditionFailed, retry
also PreconditionFailed, giving exactly two update attempts separated by
the five-second sleep and a fatal invocation. -/
theorem claim_C9_expiration_update_retry_witness :
    (ThumbnailsDispatch.tempTableFromCsv .ok
      (fun _ => .ok) (fun _ => .preconditionFailed)).1 =
      [.loadJob, .getTable 1, .updateTable 1, .sleep 5, .getTable 2,
        .updateTable 2] ∧
    ¬ ((ThumbnailsDispatch.tempTableFromCsv .ok
      (fun _ => .ok) (fun _ => .preconditionFailed)).2 = .ok ()) := by
  obtain ⟨h1, h2⟩ := (claim_C9_expiration_update_retry .ok
    (fun _ => .ok) (fun _ => .preconditionFailed)).2.1 rfl rfl rfl rfl
  refine ⟨h1, fun hok => ?_⟩
  have := h2.mp hok
  cases this

namespace EvalAgeProcessor

/-- One element of the items array of a schema-conforming LLM response. -/
structure AgeItem where
  evaluated_description : String
  evaluated_age : Int
  deriving DecidableEq, Repr

/-- Outcome of one Gemini call for one thumbnail, as the Python code
distinguishes them: a genai APIError, a response text that is not JSON, or
a parsed JSON object (whose items array is absent when the response does
not match the expected schema). -/
inductive LlmOutcome where
  | apiError (msg : String)
  | invalidJson (msg : String)
  | okJson (items : Option (List AgeItem))
  deriving DecidableEq, Repr

/-- The dictionary returned by _evaluate_thumbnail_age: its
datetime_updated entry, its description entry when present (only on the
two failure paths) and its items entry when present (only on a parsed,
schema-conforming response).  The function never returns None even though
its docstring says so. -/
structure EvalDict where
  datetime_updated : String
  description : Option String
  items : Option (List AgeItem)
  deriving DecidableEq, Repr

/-- _evaluate_thumbnail_age (youtube_thumbnails_evaluate_age_processor/
main.py lines 177-251).  The Gemini call (with the system instruction and
prompt of the batch) is the llm oracle; datetime.now() is the now oracle,
applied to a counter that advances at each call.  The two except branches
build dictionaries holding only datetime_updated and a description that
carries the error text; the success path returns the parsed JSON with
datetime_updated added. -/
def evaluateThumbnailAge (llm : String → LlmOutcome) (now : Nat → String)
    (url : String) (t : Nat) : EvalDict × Nat :=
  match llm url with
  | .apiError e =>
    ({ datetime_updated := now t,
       description := some ("Failed to evaluate thumbnail at " ++ url ++
         ": \n" ++ e ++ "."),
       items := none }, t + 1)
  | .invalidJson e =>
    ({ datetime_updated := now t,
       description := some ("Unable to parse response as JSON for thumbnail "
         ++ url ++ ": \n" ++ e ++ "."),
       items := none }, t + 1)
  | .okJson items =>
    ({ datetime_updated := now t, description := none, items := items },
      t + 1)

/-- A row written to the age-evaluation BigQuery table.  Fields absent from
a written dictionary are modelled as none. -/
structure EvalRow where
  video_id : String
  thumbnail_url : Option String
  datetime_updated : String
  evaluation_model_id : String
  evaluated_description : String
  evaluated_age : Option Int
  deriving DecidableEq, Repr

/-- The failure row written by run (lines 296-310) for a video with no
usable thumbnails. -/
def noThumbnailsRow (video_id ts : String) : EvalRow :=
  { video_id := video_id, thumbnail_url := none, datetime_updated := ts,
    evaluation_model_id := "NONE",
    evaluated_description :=
      "No usable thumbnails found for video " ++ video_id ++ ".",
    evaluated_age := none }

/-- The inner loop of run (lines 313-350) over the resolved thumbnail URLs
of one video.  Each iteration calls _evaluate_thumbnail_age and then builds
response_enriched from response-bracket-items; when the returned dictionary
has no items entry (both failure dictionaries and a schema-mismatched JSON
object) that lookup raises KeyError, aborting the invocation: nothing is
written for that thumbnail and no later thumbnail or video runs.  The
response-is-None branch of the source (lines 322-327) is dead code, since
_evaluate_thumbnail_age never returns None.  Returns the rows written to
BigQuery before any abort, and the final counter or the raised error. -/
def evalThumbnails (llm : String → LlmOutcome) (now : Nat → String)
    (model vid : String) : List String → Nat →
    List EvalRow × Except String Nat
  | [], t => ([], .ok t)
  | url :: rest, t =>
    let d := (evaluateThumbnailAge llm now url t).1
    let t1 := (evaluateThumbnailAge llm now url t).2
    match d.items with
    | none => ([], .error "KeyError: items")
    | some items =>
      let rows := items.map (fun it =>
        { video_id := vid, thumbnail_url := some url,
          datetime_updated := d.datetime_updated,
          evaluation_model_id := model,
          evaluated_description := it.evaluated_description,
          evaluated_age := some it.evaluated_age })
      let r := evalThumbnails llm now model vid rest t1
      (rows ++ r.1, r.2)

/-- The outer loop of run (lines 293-352) over the videos of the batch:
resolve thumbnails, write one failure row and continue when none resolve,
otherwise run the per-thumbnail loop and stop the whole invocation if it
raises. -/
def runVideos (resp : String → HttpResp) (llm : String → LlmOutcome)
    (now : Nat → String) (model : String) : List String → Nat →
    List EvalRow × Except String Nat
  | [], t => ([], .ok t)
  | vid :: rest, t =>
    match getThumbnailUrls resp vid with
    | none =>
      let r := runVideos resp llm now model rest (t + 1)
      (noThumbnailsRow vid (now t) :: r.1, r.2)
    | some urls =>
      let e := evalThumbnails llm now model vid urls t
      match e.2 with
      | .error msg => (e.1, .error msg)
      | .ok t1 =>
        let r := runVideos resp llm now model rest t1
        (e.1 ++ r.1, r.2)

/-- run for a whole batch message: the video loop started on the fresh
clock counter. -/
def runProcessor (resp : String → HttpResp) (llm : String → LlmOutcome)
    (now : Nat → String) (model : String) (videos : List String) :
    List EvalRow × Except String Nat :=
  runVideos resp llm now model videos 0

end EvalAgeProcessor

/-- A response oracle with no thumbnail available anywhere. -/
def respNoThumb : String → HttpResp := fun _ => ⟨404, "text/html"⟩

/-- A response oracle where exactly one thumbnail URL of video v1
resolves. -/
def respOneThumb : String → HttpResp := fun u =>
  if u = "https://i.ytimg.com/vi/v1/maxresdefault.jpg" then
    ⟨200, "image/jpeg"⟩
  else ⟨404, "text/html"⟩

/-- An LLM oracle that always returns a schema-conforming response with two
items. -/
def llmTwoItems : String → EvalAgeProcessor.LlmOutcome :=
  fun _ => .okJson (some [⟨"a child", 10⟩, ⟨"an adult", 35⟩])

/-- A strictly increasing clock oracle. -/
def tickClock : Nat → String := fun n => "ts" ++ toString n

/-- Claim C5: a video whose thumbnails do not resolve yields exactly one
failure-shaped row with evaluation_model_id NONE and a descriptive message,
and the loop continues with the remaining videos on the advanced clock; a
video with exactly one resolved thumbnail whose LLM call succeeds with k
items yields exactly k rows, all sharing the video id, the thumbnail URL,
the datetime_updated value of that single evaluation and the model id. -/
theorem claim_C5_processor_row_shapes (resp : String → HttpResp)
    (llm : String → EvalAgeProcessor.LlmOutcome) (now : Nat → String)
    (model vid url : String) (rest : List String)
    (items : List EvalAgeProcessor.AgeItem) (t : Nat) :
    (EvalAgeProcessor.getThumbnailUrls resp vid = none →
      EvalAgeProcessor.runVideos resp llm now model (vid :: rest) t =
        (EvalAgeProcessor.noThumbnailsRow vid (now t) ::
          (EvalAgeProcessor.runVideos resp llm now model rest (t + 1)).1,
         (EvalAgeProcessor.runVideos resp llm now model rest (t + 1)).2) ∧
      (EvalAgeProcessor.noThumbnailsRow vid (now t)).evaluation_model_id =
        "NONE" ∧
      (EvalAgeProcessor.noThumbnailsRow vid (now t)).evaluated_description =
        "No usable thumbnails found for video " ++ vid ++ ".") ∧
    (EvalAgeProcessor.getThumbnailUrls resp vid = some [url] →
      llm url = .okJson (some items) →
      (EvalAgeProcessor.runVideos resp llm now model [vid] t).1.length =
        items.length ∧
      (EvalAgeProcessor.runVideos resp llm now model [vid] t).2 =
        .ok (t + 1) ∧
      ∀ r ∈ (EvalAgeProcessor.runVideos resp llm now model [vid] t).1,
        r.video_id = vid ∧ r.thumbnail_url = some url ∧
        r.datetime_updated = now t ∧ r.evaluation_model_id = model) := by
  constructor
  · intro h
    refine ⟨?_, rfl, rfl⟩
    simp [EvalAgeProcessor.runVideos, h]
  · intro h hllm
    have hrun : EvalAgeProcessor.runVideos resp llm now model [vid] t =
        (items.map (fun it =>
          { video_id := vid, thumbnail_url := some url,
            datetime_updated := now t, evaluation_model_id := model,
            evaluated_description := it.evaluated_description,
            evaluated_age := some it.evaluated_age }), .ok (t + 1)) := by
      simp [EvalAgeProcessor.runVideos, EvalAgeProcessor.evalThumbnails,
        EvalAgeProcessor.evaluateThumbnailAge, h, hllm]
    rw [hrun]
    refine ⟨by simp, rfl, ?_⟩
    intro r hr
    simp only [List.mem_map] at hr
    obtain ⟨it, _, hit⟩ := hr
    subst hit
    exact ⟨rfl, rfl, rfl, rfl⟩

/-- Concrete instances of claim C5: a video with no thumbnails produces the
single NONE row and the loop goes on; a video with one thumbnail and a
two-item LLM response produces two rows sharing timestamp and model id. -/
theorem claim_C5_processor_row_shapes_witness :
    EvalAgeProcessor.getThumbnailUrls respNoThumb "v0" = none ∧
    EvalAgeProcessor.runVideos respNoThumb llmTwoItems tickClock "m"
      ["v0"] 0 =
      (EvalAgeProcessor.noThumbnailsRow "v0" (tickClock 0) ::
        (EvalAgeProcessor.runVideos respNoThumb llmTwoItems tickClock "m"
          [] 1).1,
       (EvalAgeProcessor.runVideos respNoThumb llmTwoItems tickClock "m"
         [] 1).2) ∧
    (EvalAgeProcessor.runVideos respOneThumb llmTwoItems tickClock "m"
      ["v1"] 0).1.length = 2 ∧
    (∀ r ∈ (EvalAgeProcessor.runVideos respOneThumb llmTwoItems tickClock
        "m" ["v1"] 0).1,
      r.datetime_updated = tickClock 0 ∧ r.evaluation_model_id = "m") := by
  have hnone : EvalAgeProcessor.getThumbnailUrls respNoThumb "v0" = none :=
    by decide
  have hone : EvalAgeProcessor.getThumbnailUrls respOneThumb "v1" =
      some ["https://i.ytimg.com/vi/v1/maxresdefault.jpg"] := by decide
  have ha := (claim_C5_processor_row_shapes respNoThumb llmTwoItems
    tickClock "m" "v0" "" [] [] 0).1 hnone
  have hb := (claim_C5_processor_row_shapes respOneThumb llmTwoItems
    tickClock "m" "v1" "https://i.ytimg.com/vi/v1/maxresdefault.jpg" []
    [⟨"a child", 10⟩, ⟨"an adult", 35⟩] 0).2 hone rfl
  refine ⟨hnone, ha.1, hb.1, fun r hr => ?_⟩
  have := hb.2.2 r hr
  exact ⟨this.2.2.1, this.2.2.2⟩

/-- A response oracle where one thumbnail URL resolves for each of the
videos v1 and v2. -/
def respC1 : String → HttpResp := fun u =>
  if u = "https://i.ytimg.com/vi/v1/maxresdefault.jpg" ∨
      u = "https://i.ytimg.com/vi/v2/maxresdefault.jpg" then
    ⟨200, "image/jpeg"⟩
  else ⟨404, "text/html"⟩

/-- An LLM oracle that raises an APIError for the v1 thumbnail and answers
well for every other thumbnail. -/
def llmC1 : String → EvalAgeProcessor.LlmOutcome := fun u =>
  if u = "https://i.ytimg.com/vi/v1/maxresdefault.jpg" then
    .apiError "503 backend unavailable"
  else .okJson (some [⟨"an adult", 30⟩])

/-- Claim C1 is violated by the code: when the LLM call for a resolved
thumbnail fails, _evaluate_thumbnail_age returns a dictionary that carries
the error text in its description entry but has no items entry (first
conjunct); run then evaluates response-bracket-items on it, which raises
KeyError, so the batch run writes no failure record at all and aborts
before the remaining videos (second conjunct: no rows, error result, video
v2 never processed even though its own evaluation would succeed). -/
theorem claim_C1_llm_failure_aborts_batch :
    (EvalAgeProcessor.evaluateThumbnailAge llmC1 tickClock
        "https://i.ytimg.com/vi/v1/maxresdefault.jpg" 0).1 =
      { datetime_updated := tickClock 0,
        description := some ("Failed to evaluate thumbnail at " ++
          "https://i.ytimg.com/vi/v1/maxresdefault.jpg: \n" ++
          "503 backend unavailable."),
        items := none } ∧
    EvalAgeProcessor.runProcessor respC1 llmC1 tickClock "gemini"
      ["v1", "v2"] = ([], .error "KeyError: items") := by
  constructor
  · rfl
  · rfl

/-- Concrete instance of claim C4: the probe order facts applied to a small
tier with an acceptance oracle that accepts only the second URL. -/
theorem claim_C4_resolver_probe_order_witness :
    (probeTier (fun u => u == "b") ["a", "b", "c"]).1 =
      (["a", "b", "c"].find? (fun u => u == "b")) ∧
    (probeTier (fun u => u == "b") ["a", "b", "c"]).2 =
      (["a", "b", "c"].takeWhile (fun u => !(u == "b")) ++
        (["a", "b", "c"].dropWhile (fun u => !(u == "b"))).take 1) :=
  claim_C4_resolver_probe_order.1 (fun u => u == "b") ["a", "b", "c"]
